import Mathlib

/-!
Shallow embedding of `PDF_Compress.py`, a batch PDF compression script.

The script enumerates the PDF files of an input directory, submits one
compression task per file to a thread pool, and reduces the per-file
results into aggregate counters that are printed as a final summary.

Modelling decisions:
* Byte counts are natural numbers; the megabyte sizes computed by
  `get_file_size` (Python floats) are modelled as rationals.
* The delegated library call `doc.save(...)` is an opaque external
  collaborator.  Its behaviour on a given file is an environment
  parameter (`SaveOutcome`): either it succeeds and the output file has
  some size in bytes, or it raises an exception carrying a message.
* Module-level import successes (`PYMUPDF_AVAILABLE`, `PIL_AVAILABLE`)
  are Boolean parameters of the run.
* The thread pool reduces results in completion order, an arbitrary
  permutation of submission order; the reference run folds results in
  submission order and order independence is proved over permutations.
* The source field `compression_ratio` is rendered here as
  `compression_percent` (it is the ratio expressed as a percentage).
-/

namespace PDFCompress

/-- Configuration held by `PDFCompressorPython.__init__`: input and output
directories plus the pass-through image options. -/
structure CompressorConfig where
  input_dir : String
  output_dir : String
  image_quality : Int
  image_dpi : Int
  deriving DecidableEq, Repr

/-- Behaviour of the opaque delegated call `doc.save(...)` (together with
`fitz.open`) on one input file: success produces an output file of some
size in bytes, failure raises an exception with a message. -/
inductive SaveOutcome where
  | ok (outputBytes : Nat)
  | err (msg : String)
  deriving DecidableEq, Repr

/-- One discovered input file, together with the environment facts the
worker can observe about it: its size in bytes, whether
`input_path.exists()` holds, and how the delegated save call behaves on
it. -/
structure InputFile where
  name : String
  bytes : Nat
  present : Bool
  outcome : SaveOutcome
  deriving DecidableEq, Repr

/-- The result dictionary returned by `compress_pdf_pymupdf` for one task.
`compression_percent` is the source's `compression_ratio` field: the size
reduction expressed as a percentage. -/
structure CompressionResult where
  success : Bool
  original_size : ℚ
  compressed_size : ℚ
  compression_percent : ℚ
  error : Option String
  deriving DecidableEq, Repr

/-- Keyword arguments the worker passes to the delegated call
`doc.save(str(output_path), garbage=4, deflate=True, clean=True,
pretty=False)`. -/
structure SaveArgs where
  path : String
  garbage : Nat
  deflate : Bool
  clean : Bool
  pretty : Bool
  deriving DecidableEq, Repr

/-- `get_file_size`: file size converted from bytes to megabytes,
`os.path.getsize(filepath) / (1024 * 1024)`. -/
def get_file_size (bytes : Nat) : ℚ :=
  (bytes : ℚ) / (1024 * 1024)

/-- The exact arguments `compress_pdf_pymupdf` hands to the delegated
`doc.save` call (source lines 92-96). -/
def saveCallArgs (outputPath : String) : SaveArgs :=
  { path := outputPath, garbage := 4, deflate := true, clean := true, pretty := false }

/-- `compress_pdf_pymupdf`: the per-file worker.  Opens and re-saves the
document through the delegated call, then computes sizes and the
percentage reduction; any exception raised inside the `try` block is
caught and converted into a failure result carrying `str(e)`.
Two exception sources exist: the delegated save call itself
(`SaveOutcome.err`), and the ratio computation, which raises
`ZeroDivisionError` when the input file has size 0 (Python float division
by zero).  Returns the save-call arguments (what was passed to the
delegated collaborator) paired with the result dictionary. -/
def compress_pdf_pymupdf (cfg : CompressorConfig) (input : InputFile)
    (outputPath : String) : SaveArgs × CompressionResult :=
  let args := saveCallArgs outputPath
  let failure : String → CompressionResult := fun e =>
    { success := false
      original_size := if input.present then get_file_size input.bytes else 0
      compressed_size := 0
      compression_percent := 0
      error := some e }
  match input.outcome with
  | .ok outputBytes =>
      if input.bytes = 0 then
        (args, failure "float division by zero")
      else
        let original_size := get_file_size input.bytes
        let compressed_size := get_file_size outputBytes
        (args,
          { success := true
            original_size := original_size
            compressed_size := compressed_size
            compression_percent := (1 - compressed_size / original_size) * 100
            error := none })
  | .err e => (args, failure e)

/-- The mutable accumulators of `compress_all`'s result-collection loop. -/
structure Accum where
  successful_compressions : Nat
  failed_compressions : Nat
  total_original_size : ℚ
  total_compressed_size : ℚ
  deriving DecidableEq, Repr

/-- Initial accumulator state (all counters zero, source lines 146-149). -/
def Accum.init : Accum := ⟨0, 0, 0, 0⟩

/-- One iteration of the result-collection loop (source lines 161-176):
a successful result bumps the success count and adds both sizes to the
byte totals; a failed result only bumps the failure count. -/
def step (a : Accum) (r : CompressionResult) : Accum :=
  if r.success then
    { a with
      successful_compressions := a.successful_compressions + 1
      total_original_size := a.total_original_size + r.original_size
      total_compressed_size := a.total_compressed_size + r.compressed_size }
  else
    { a with failed_compressions := a.failed_compressions + 1 }

/-- The reducer: fold the collection loop over the results in the order
they complete. -/
def reduceResults (rs : List CompressionResult) : Accum :=
  rs.foldl step Accum.init

/-- `overall_compression` (source line 179):
`(1 - total_compressed_size / total_original_size) * 100 if
total_original_size > 0 else 0`. -/
def overall_compression (total_original total_compressed : ℚ) : ℚ :=
  if 0 < total_original then (1 - total_compressed / total_original) * 100 else 0

/-- The final summary block printed by `compress_all`
(source lines 181-191). -/
structure RunSummary where
  processed : Nat
  successful_compressions : Nat
  failed_compressions : Nat
  total_original_size : ℚ
  total_compressed_size : ℚ
  overall_compression : ℚ
  deriving DecidableEq, Repr

/-- Build the printed summary from the file count (`len(pdf_files)`) and
the final accumulator state. -/
def summarize (fileCount : Nat) (a : Accum) : RunSummary :=
  { processed := fileCount
    successful_compressions := a.successful_compressions
    failed_compressions := a.failed_compressions
    total_original_size := a.total_original_size
    total_compressed_size := a.total_compressed_size
    overall_compression :=
      overall_compression a.total_original_size a.total_compressed_size }

/-- How a call to `compress_all` terminates: one of the three early
returns, or normal completion with a printed summary. -/
inductive RunOutcome where
  | missingPyMuPDF
  | missingPillow
  | noFiles
  | completed (summary : RunSummary)
  deriving DecidableEq, Repr

/-- Observable trace of one `compress_all` call: which files were
submitted to the pool, the per-file results in submission order (the
sequential reference order), and how the call terminated. -/
structure RunTrace where
  dispatched : List InputFile
  results : List CompressionResult
  outcome : RunOutcome
  deriving DecidableEq, Repr

/-- The work one pool worker performs for one file: run
`compress_pdf_pymupdf` on the file with output path
`self.output_dir / pdf_file.name` (source lines 156-157). -/
def runWorker (cfg : CompressorConfig) (f : InputFile) : SaveArgs × CompressionResult :=
  compress_pdf_pymupdf cfg f (cfg.output_dir ++ "/" ++ f.name)

/-- `compress_all` (source lines 123-191): return early if PyMuPDF is
unavailable, then if Pillow is unavailable, then if no PDF files were
found; otherwise submit one task per file, reduce the results, and print
the summary.  `pymupdf` and `pil` are the module-level availability
flags; `files` is the directory listing `self.input_dir.glob("*.pdf")`. -/
def compress_all (cfg : CompressorConfig) (pymupdf pil : Bool)
    (files : List InputFile) : RunTrace :=
  if pymupdf = false then ⟨[], [], .missingPyMuPDF⟩
  else if pil = false then ⟨[], [], .missingPillow⟩
  else if files.isEmpty then ⟨[], [], .noFiles⟩
  else
    let results := files.map fun f => (runWorker cfg f).2
    ⟨files, results, .completed (summarize files.length (reduceResults results))⟩

/-- Exit status of the process after `main` runs.  The script defines no
`sys.exit` call anywhere; `compress_all` returns `None` on every path
(early returns included), `main` ignores that value was returned, and the
interpreter exits with status 0.  Each termination path is listed to
mirror that every one of them falls off the end of `main`. -/
def mainExitCode (cfg : CompressorConfig) (pymupdf pil : Bool)
    (files : List InputFile) : Nat :=
  match (compress_all cfg pymupdf pil files).outcome with
  | .missingPyMuPDF => 0
  | .missingPillow => 0
  | .noFiles => 0
  | .completed _ => 0

/-- Output files written during a run: the delegated save call writes the
output file for exactly the dispatched tasks on which it succeeds. -/
def outputsWritten (cfg : CompressorConfig) (pymupdf pil : Bool)
    (files : List InputFile) : List String :=
  ((compress_all cfg pymupdf pil files).dispatched.filter fun f =>
    match f.outcome with
    | .ok _ => true
    | .err _ => false).map InputFile.name

/-! ### Helper lemmas about the reducer -/

/-- The collection-loop body is right-commutative: folding two results in
either order leaves the accumulator in the same state. -/
theorem step_comm (a : Accum) (r s : CompressionResult) :
    step (step a r) s = step (step a s) r := by
  unfold step
  by_cases hr : r.success <;> by_cases hs : s.success <;>
    simp [hr, hs, Accum.mk.injEq] <;> constructor <;> ring

/-- Folding the loop body adds exactly one to the success-plus-failure
count for every result observed. -/
theorem foldl_step_counts (rs : List CompressionResult) (a : Accum) :
    (rs.foldl step a).successful_compressions + (rs.foldl step a).failed_compressions
      = a.successful_compressions + a.failed_compressions + rs.length := by
  induction rs generalizing a with
  | nil => simp
  | cons r rs ih =>
      simp only [List.foldl_cons, List.length_cons]
      rw [ih]
      by_cases hr : r.success <;> simp [step, hr] <;> omega

/-- Folding the loop body accumulates into the byte totals exactly the
sizes of the successful results. -/
theorem foldl_step_totals (rs : List CompressionResult) (a : Accum) :
    (rs.foldl step a).total_original_size
        = a.total_original_size
            + ((rs.filter fun r => r.success).map fun r => r.original_size).sum
      ∧ (rs.foldl step a).total_compressed_size
        = a.total_compressed_size
            + ((rs.filter fun r => r.success).map fun r => r.compressed_size).sum := by
  induction rs generalizing a with
  | nil => simp
  | cons r rs ih =>
      by_cases hr : r.success <;>
        simp [step, hr, ih, add_assoc]

/-- Folding the loop body counts exactly the unsuccessful results into the
failure counter. -/
theorem foldl_step_failed (rs : List CompressionResult) (a : Accum) :
    (rs.foldl step a).failed_compressions
      = a.failed_compressions + (rs.filter fun r => r.success = false).length := by
  induction rs generalizing a with
  | nil => simp
  | cons r rs ih =>
      by_cases hr : r.success <;> simp [step, hr, ih] <;> omega

/-- Reducing a permutation of a result list yields the same accumulator. -/
theorem reduceResults_perm {rs rs' : List CompressionResult} (h : rs.Perm rs') :
    reduceResults rs = reduceResults rs' :=
  h.foldl_eq' (fun x _hx y _hy a => step_comm a x y) Accum.init

/-! ### Concrete sample data used by the witnesses -/

/-- Default configuration of the script. -/
def sampleCfg : CompressorConfig :=
  ⟨"papers", "papers_compressed_python", 50, 150⟩

/-- A 2 MiB input file the delegated call compresses to 1 MiB. -/
def fileA : InputFile := ⟨"a.pdf", 2097152, true, .ok 1048576⟩

/-- A 1 MiB input file on which the delegated call raises. -/
def fileB : InputFile := ⟨"b.pdf", 1048576, true, .err "broken"⟩

/-- The summary of a run over `[fileA]`. -/
def summaryA : RunSummary :=
  summarize [fileA].length (reduceResults [(runWorker sampleCfg fileA).2])

/-- The summary of a run over `[fileB]` (the single task fails). -/
def summaryB : RunSummary :=
  summarize [fileB].length (reduceResults [(runWorker sampleCfg fileB).2])

/-- Inversion: a run that reaches the summary did so through the final
branch of `compress_all`, with one worker result per discovered file. -/
theorem compress_all_completed_inv {cfg : CompressorConfig} {pymupdf pil : Bool}
    {files : List InputFile} {s : RunSummary}
    (h : (compress_all cfg pymupdf pil files).outcome = .completed s) :
    s = summarize files.length
          (reduceResults (files.map fun f => (runWorker cfg f).2))
      ∧ (compress_all cfg pymupdf pil files).results
          = files.map fun f => (runWorker cfg f).2 := by
  unfold compress_all at h ⊢
  by_cases h1 : pymupdf = false
  · simp [h1] at h
  · by_cases h2 : pil = false
    · simp [h1, h2] at h
    · by_cases h3 : files.isEmpty
      · simp [h1, h2, h3] at h
      · simp only [h1, h2, h3, if_false, Bool.false_eq_true, if_neg] at h ⊢
        simp at h
        exact ⟨h.symm, by simp [h1, h2, h3]⟩

/-! ### Claims -/

/-- C1: in every completed run the reported files-processed count equals
successes plus failures, and every discovered input file yields exactly
one CompressionResult that the reducer observes exactly once (the result
list folded by the reducer has one entry per file and the processed count
equals the number of files). -/
theorem C1_processed_eq_successes_plus_failures
    (cfg : CompressorConfig) (pymupdf pil : Bool) (files : List InputFile)
    (s : RunSummary)
    (h : (compress_all cfg pymupdf pil files).outcome = .completed s) :
    s.processed = s.successful_compressions + s.failed_compressions
      ∧ (compress_all cfg pymupdf pil files).results.length = files.length
      ∧ s.processed = files.length := by
  obtain ⟨hs, hr⟩ := compress_all_completed_inv h
  subst hs
  refine ⟨?_, by simp [hr], rfl⟩
  have hc := foldl_step_counts (files.map fun f => (runWorker cfg f).2) Accum.init
  simp only [Accum.init, Nat.add_zero, Nat.zero_add, List.length_map] at hc
  simp only [summarize, reduceResults, Accum.init]
  exact hc.symm

/-- C1 witness: a concrete completed run over one successfully compressed
file. -/
theorem C1_witness :
    summaryA.processed = summaryA.successful_compressions + summaryA.failed_compressions
      ∧ (compress_all sampleCfg true true [fileA]).results.length = [fileA].length
      ∧ summaryA.processed = [fileA].length :=
  C1_processed_eq_successes_plus_failures sampleCfg true true [fileA] summaryA rfl

/-- C2: in every completed run the overall figure is computed by the
guarded formula `(1 - total_compressed/total_original) * 100` when the
original total is positive and is exactly 0 when the original total is 0,
so the summary never divides by zero. -/
theorem C2_overall_compression_zero_guard
    (cfg : CompressorConfig) (pymupdf pil : Bool) (files : List InputFile)
    (s : RunSummary)
    (h : (compress_all cfg pymupdf pil files).outcome = .completed s) :
    s.overall_compression
        = (if 0 < s.total_original_size then
            (1 - s.total_compressed_size / s.total_original_size) * 100 else 0)
      ∧ (s.total_original_size = 0 → s.overall_compression = 0) := by
  obtain ⟨hs, -⟩ := compress_all_completed_inv h
  subst hs
  refine ⟨rfl, fun h0 => ?_⟩
  simp only [summarize, overall_compression] at h0 ⊢
  rw [h0]
  simp

/-- C2 witness: a concrete run whose single task fails, leaving the
original byte total at 0 and the overall figure at 0. -/
theorem C2_witness :
    summaryB.overall_compression
        = (if 0 < summaryB.total_original_size then
            (1 - summaryB.total_compressed_size / summaryB.total_original_size) * 100 else 0)
      ∧ (summaryB.total_original_size = 0 → summaryB.overall_compression = 0) :=
  C2_overall_compression_zero_guard sampleCfg true true [fileB] summaryB rfl

/-- C3: the reducer's byte totals accumulate contributions only from
results with `success = true`, and a failed result is counted in the
failure count while adding nothing to either byte total. -/
theorem C3_totals_from_successes_only (rs : List CompressionResult) :
    (reduceResults rs).total_original_size
        = ((rs.filter fun r => r.success).map fun r => r.original_size).sum
      ∧ (reduceResults rs).total_compressed_size
        = ((rs.filter fun r => r.success).map fun r => r.compressed_size).sum
      ∧ (reduceResults rs).failed_compressions
        = (rs.filter fun r => r.success = false).length := by
  have ht := foldl_step_totals rs Accum.init
  have hf := foldl_step_failed rs Accum.init
  simp only [Accum.init, zero_add, Nat.zero_add] at ht hf
  exact ⟨ht.1, ht.2, hf⟩

/-- C5: the final summary is independent of the completion order of the
results: reducing any permutation of the submission-order worker results
yields the same summary as the strictly sequential run. -/
theorem C5_summary_completion_order_independent
    (cfg : CompressorConfig) (files : List InputFile)
    (completion : List CompressionResult)
    (h : completion.Perm (files.map fun f => (runWorker cfg f).2)) :
    summarize files.length (reduceResults completion)
      = summarize files.length
          (reduceResults (files.map fun f => (runWorker cfg f).2)) := by
  rw [reduceResults_perm h]

/-- C5 witness: a two-file run reduced in reversed completion order. -/
theorem C5_witness :
    summarize [fileA, fileB].length
        (reduceResults [(runWorker sampleCfg fileB).2, (runWorker sampleCfg fileA).2])
      = summarize [fileA, fileB].length
          (reduceResults ([fileA, fileB].map fun f => (runWorker sampleCfg f).2)) :=
  C5_summary_completion_order_independent sampleCfg [fileA, fileB]
    [(runWorker sampleCfg fileB).2, (runWorker sampleCfg fileA).2]
    (List.Perm.swap (runWorker sampleCfg fileA).2 (runWorker sampleCfg fileB).2 [])

/-- C4: whatever failure the delegated compression call raises, the
per-file worker catches it and returns a CompressionResult with
`success = false` carrying the failure description; the worker always
returns a result (it is a total function), so the failure never
propagates and the run continues. -/
theorem C4_worker_converts_failures
    (cfg : CompressorConfig) (name : String) (bytes : Nat) (present : Bool)
    (e : String) (outputPath : String) :
    (compress_pdf_pymupdf cfg ⟨name, bytes, present, .err e⟩ outputPath).2.success = false
      ∧ (compress_pdf_pymupdf cfg ⟨name, bytes, present, .err e⟩ outputPath).2.error
          = some e := by
  simp [compress_pdf_pymupdf]

/-- C6 counterexample: with PyMuPDF missing the run does abort before any
task is dispatched, but the process exit status is 0, not non-zero as the
claim states. -/
theorem C6_counterexample :
    (compress_all sampleCfg false true [fileA]).outcome = .missingPyMuPDF
      ∧ (compress_all sampleCfg false true [fileA]).dispatched = []
      ∧ mainExitCode sampleCfg false true [fileA] = 0 :=
  ⟨rfl, rfl, rfl⟩

/-- C6 amended: when the required capability is missing the run aborts
before any task runs (nothing dispatched, no results), but the process
exits 0 on every path — the script never produces a non-zero exit
status. -/
theorem C6_exit_code_always_zero
    (cfg : CompressorConfig) (pymupdf pil : Bool) (files : List InputFile) :
    mainExitCode cfg pymupdf pil files = 0
      ∧ (compress_all cfg false pil files).outcome = .missingPyMuPDF
      ∧ (compress_all cfg false pil files).dispatched = []
      ∧ (compress_all cfg false pil files).results = [] := by
  refine ⟨?_, rfl, rfl, rfl⟩
  unfold mainExitCode
  split <;> rfl

/-- C7: with both libraries available and no input files discovered, the
run terminates through the distinct no-input outcome with nothing
dispatched, no results, no output files written, and exit status 0. -/
theorem C7_empty_input_clean_termination (cfg : CompressorConfig) :
    (compress_all cfg true true []).outcome = .noFiles
      ∧ (compress_all cfg true true []).dispatched = []
      ∧ (compress_all cfg true true []).results = []
      ∧ outputsWritten cfg true true [] = []
      ∧ mainExitCode cfg true true [] = 0 :=
  ⟨rfl, rfl, rfl, rfl, rfl⟩

/-- Configuration with low image quality and DPI, used to show the
options are never forwarded. -/
def cfgQ30 : CompressorConfig := ⟨"papers", "out", 30, 100⟩

/-- Same configuration with high image quality and DPI. -/
def cfgQ70 : CompressorConfig := ⟨"papers", "out", 70, 200⟩

/-- C8 counterexample: two configurations that differ in both image
quality and DPI produce byte-for-byte identical delegated save calls and
identical results, so the options are not forwarded to the delegated
compression call. -/
theorem C8_counterexample :
    cfgQ30.image_quality ≠ cfgQ70.image_quality
      ∧ cfgQ30.image_dpi ≠ cfgQ70.image_dpi
      ∧ compress_pdf_pymupdf cfgQ30 fileA "out/a.pdf"
          = compress_pdf_pymupdf cfgQ70 fileA "out/a.pdf" :=
  ⟨by decide, by decide, rfl⟩

/-- C8 amended: the quality and DPI options are accepted and stored but
never passed to the delegated compression call: the worker always hands
the delegated call the fixed arguments `garbage=4, deflate, clean, not
pretty` and behaves identically under any two configurations. -/
theorem C8_save_options_fixed_not_forwarded
    (cfg cfg' : CompressorConfig) (input : InputFile) (outputPath : String) :
    (compress_pdf_pymupdf cfg input outputPath).1
        = { path := outputPath, garbage := 4, deflate := true
            clean := true, pretty := false }
      ∧ compress_pdf_pymupdf cfg input outputPath
          = compress_pdf_pymupdf cfg' input outputPath := by
  refine ⟨?_, rfl⟩
  cases hI : input.outcome with
  | ok n =>
      by_cases hb : input.bytes = 0 <;>
        simp [compress_pdf_pymupdf, saveCallArgs, hI, hb]
  | err e => simp [compress_pdf_pymupdf, saveCallArgs, hI]

/-- C9 counterexample: a 2097152-byte input file is recorded with
`original_size = 2` (megabytes), not 2097152, so the result does not
record sizes in bytes. -/
theorem C9_counterexample :
    fileA.bytes = 2097152
      ∧ (runWorker sampleCfg fileA).2.original_size = 2
      ∧ (runWorker sampleCfg fileA).2.original_size ≠ ((2097152 : Nat) : ℚ) := by
  refine ⟨rfl, ?_, ?_⟩ <;>
    norm_num [runWorker, compress_pdf_pymupdf, sampleCfg, fileA, get_file_size]

/-- C9 amended: for a successful task on a non-empty input file, the
result records the input and output sizes in megabytes (bytes divided by
1024*1024), and its compression percentage equals
`(1 - compressed_size/original_size) * 100`. -/
theorem C9_result_sizes_in_megabytes
    (cfg : CompressorConfig) (input : InputFile) (outputBytes : Nat)
    (outputPath : String)
    (hb : input.bytes ≠ 0) (ho : input.outcome = .ok outputBytes) :
    (compress_pdf_pymupdf cfg input outputPath).2.original_size
        = (input.bytes : ℚ) / (1024 * 1024)
      ∧ (compress_pdf_pymupdf cfg input outputPath).2.compressed_size
        = (outputBytes : ℚ) / (1024 * 1024)
      ∧ (compress_pdf_pymupdf cfg input outputPath).2.compression_percent
        = (1 - (compress_pdf_pymupdf cfg input outputPath).2.compressed_size
              / (compress_pdf_pymupdf cfg input outputPath).2.original_size) * 100 := by
  simp [compress_pdf_pymupdf, ho, hb, get_file_size]

/-- C9 amended witness: the concrete 2 MiB to 1 MiB compression. -/
theorem C9_witness :
    (compress_pdf_pymupdf sampleCfg fileA "out/a.pdf").2.original_size
        = (fileA.bytes : ℚ) / (1024 * 1024)
      ∧ (compress_pdf_pymupdf sampleCfg fileA "out/a.pdf").2.compressed_size
        = ((1048576 : Nat) : ℚ) / (1024 * 1024)
      ∧ (compress_pdf_pymupdf sampleCfg fileA "out/a.pdf").2.compression_percent
        = (1 - (compress_pdf_pymupdf sampleCfg fileA "out/a.pdf").2.compressed_size
              / (compress_pdf_pymupdf sampleCfg fileA "out/a.pdf").2.original_size) * 100 :=
  C9_result_sizes_in_megabytes sampleCfg fileA 1048576 "out/a.pdf" (by decide) rfl

/-- C10: when Pillow is unavailable `compress_all` returns before
dispatching any file or producing any result or output, regardless of
whether PyMuPDF is available; with PyMuPDF available the outcome is the
dedicated missing-Pillow early return. -/
theorem C10_missing_pillow_blocks_run
    (cfg : CompressorConfig) (pymupdf : Bool) (files : List InputFile) :
    (compress_all cfg pymupdf false files).dispatched = []
      ∧ (compress_all cfg pymupdf false files).results = []
      ∧ outputsWritten cfg pymupdf false files = []
      ∧ (compress_all cfg true false files).outcome = .missingPillow := by
  cases pymupdf <;> exact ⟨rfl, rfl, rfl, rfl⟩

end PDFCompress
